import Mathlib

/-!
Shallow embedding of the musik_api service (src/main.go): the Song data
model, the query/body binding performed by the gin framework on the
declared struct tags, the gorm persistence operations as the handlers
invoke them, and the five request handlers.  Machine integers are modelled
as Int (no overflow is reachable on the inputs considered); fallible
operations return Option or Except; the Go slice-bounds panic is modelled
as a dedicated response constructor.
-/

namespace MusikApi

/-- The Song entity (src/main.go lines 38-45).  `Group` and `SongName`
carry a required-validation tag that gin enforces on every bind. -/
structure Song where
  ID : Int
  Group : String
  SongName : String
  ReleaseDate : String
  Text : String
  Link : String
deriving Repr, DecidableEq

/-- Enrichment response shape (src/main.go lines 227-231). -/
structure SongDetail where
  ReleaseDate : String
  Text : String
  Link : String
deriving Repr, DecidableEq

/-- Database state: the song table rows plus the serial sequence that
backs the auto-increment primary key. -/
structure Store where
  rows : List Song
  seq : Int
deriving Repr, DecidableEq

/-- Decimal digit run parser used by `goAtoi`: all characters must be
digits and at least one must be present. -/
def parseDigits (cs : List Char) : Option Nat :=
  if cs = [] then none
  else if cs.all Char.isDigit then
    some (cs.foldl (fun a c => a * 10 + (c.toNat - 48)) 0)
  else none

/-- Go strconv.Atoi: optional sign then digits; any other input is an
error (range errors are unreachable on the inputs considered). -/
def goAtoi (s : String) : Option Int :=
  match s.data with
  | [] => none
  | c :: cs =>
    if c = '-' then (parseDigits cs).map (fun n => -(Int.ofNat n))
    else if c = '+' then (parseDigits cs).map Int.ofNat
    else (parseDigits (c :: cs)).map Int.ofNat

/-- Go min (src/main.go lines 339-344). -/
def goMin (a b : Int) : Int :=
  if a < b then a else b

/-- Go string slicing s[lo:hi] over the characters of the text (byte and
character indices coincide on the ASCII inputs considered); `none` models
the runtime slice-bounds panic raised unless 0 ≤ lo ≤ hi ≤ len s. -/
def goSlice (s : List Char) (lo hi : Int) : Option (List Char) :=
  if 0 ≤ lo ∧ lo ≤ hi ∧ hi ≤ (s.length : Int) then
    some ((s.drop lo.toNat).take (hi - lo).toNat)
  else none

/-- First value bound to a query key, as gin c.Query. -/
def getQuery (ps : List (String × String)) (k : String) : Option String :=
  (ps.find? (fun p => p.1 = k)).map Prod.snd

/-- gin c.DefaultQuery: the default only when the key is absent. -/
def defaultQuery (p : Option String) (d : String) : String :=
  p.getD d

/-- `page, _ := strconv.Atoi(...)`: the error is discarded, so a failed
parse leaves the integer zero value. -/
def atoiOrZero (s : String) : Int :=
  (goAtoi s).getD 0

/-- The page/limit parsing shared by GetSongs (lines 126-127) and
GetSongText (lines 330-331): DefaultQuery with defaults "1" and "10",
then Atoi with the error discarded. -/
def parsePageLimit (page limit : Option String) : Int × Int :=
  (atoiOrZero (defaultQuery page "1"), atoiOrZero (defaultQuery limit "10"))

/-- gin query binding of the Song struct (ShouldBindQuery, line 131).
The struct has no form tags, so gin maps each query parameter by the
struct field name; absent parameters leave the zero value; an empty ID
parameter binds 0.  Validation then enforces the required tags on
`Group` and `SongName`. -/
def bindQuerySong (ps : List (String × String)) : Except String Song :=
  let idv : Option Int :=
    match getQuery ps "ID" with
    | none => some 0
    | some s => if s = "" then some 0 else goAtoi s
  match idv with
  | none => Except.error "strconv.ParseInt parsing ID"
  | some i =>
    let g := (getQuery ps "Group").getD ""
    let sn := (getQuery ps "SongName").getD ""
    let rd := (getQuery ps "ReleaseDate").getD ""
    let tx := (getQuery ps "Text").getD ""
    let lk := (getQuery ps "Link").getD ""
    if g = "" then Except.error "Group is required"
    else if sn = "" then Except.error "SongName is required"
    else Except.ok (Song.mk i g sn rd tx lk)

/-- gin JSON body binding of the Song struct (ShouldBindJSON /
ShouldBindBodyWithJSON): the argument is the decoded body (omitted
fields are zero values); validation enforces the required tags on
`Group` and `SongName`. -/
def bindBodySong (body : Song) : Except String Song :=
  if body.Group = "" then Except.error "Group is required"
  else if body.SongName = "" then Except.error "SongName is required"
  else Except.ok body

/-- Prefix test on character lists, used by the substring test below. -/
def startsWithChars : List Char → List Char → Bool
  | [], _ => true
  | _ :: _, [] => false
  | a :: as, b :: bs => a = b && startsWithChars as bs

/-- Substring (contiguous) test on character lists, modelling the SQL
`LIKE %needle%` pattern of the text filter. -/
def containsChars (needle : List Char) : List Char → Bool
  | [] => startsWithChars needle []
  | c :: t => startsWithChars needle (c :: t) || containsChars needle t

/-- The WHERE chain built on `query` in GetSongs (src/main.go lines
142-156): equality on group, song_name, release_date and link when the
bound filter value is non-empty, and `text LIKE %v%` (substring) for the
text filter.  The executed Find on line 158 does not use this chain. -/
def chainedFilter (f row : Song) : Bool :=
  (f.Group = "" || row.Group = f.Group) &&
  (f.SongName = "" || row.SongName = f.SongName) &&
  (f.ReleaseDate = "" || row.ReleaseDate = f.ReleaseDate) &&
  (f.Text = "" || containsChars f.Text.data row.Text.data) &&
  (f.Link = "" || row.Link = f.Link)

/-- gorm Find with the empty `where` map, Offset and Limit (src/main.go
line 158): gorm emits OFFSET only when the offset is positive and LIMIT
only when the limit is non-negative. -/
def gormFindAll (rows : List Song) (offset limit : Int) : List Song :=
  let afterOff := if 0 < offset then rows.drop offset.toNat else rows
  if 0 ≤ limit then afterOff.take limit.toNat else afterOff

/-- gorm First by primary key (db.First(&song, id), line 318). -/
def gormFirst (rows : List Song) (id : Int) : Option Song :=
  rows.find? (fun r => r.ID = id)

/-- gorm Create (db.Create(&newSong), line 217): when the primary key is
the zero value the serial sequence assigns it and advances; a non-zero
primary key is inserted as given, leaving the sequence untouched.
Returns the row as persisted (gorm back-fills the ID on the value). -/
def gormCreate (s : Song) (store : Store) : Song × Store :=
  if s.ID = 0 then
    let assigned := { s with ID := store.seq }
    (assigned, Store.mk (store.rows ++ [assigned]) (store.seq + 1))
  else
    (s, Store.mk (store.rows ++ [s]) store.seq)

/-- gorm Updates with a struct value (line 259): assigns only the fields
holding non-zero values.  The updating value handed to Updates is not
the statement Model (the Model is the empty Song template), so gorm's
assignment conversion treats the primary key like any other field: a
non-zero body id is written into the SET clause too, while a zero id,
like any other zero-valued field, is left untouched. -/
def gormUpdatesApply (patch row : Song) : Song :=
  { row with
    ID := if patch.ID = 0 then row.ID else patch.ID,
    Group := if patch.Group = "" then row.Group else patch.Group,
    SongName := if patch.SongName = "" then row.SongName else patch.SongName,
    ReleaseDate := if patch.ReleaseDate = "" then row.ReleaseDate else patch.ReleaseDate,
    Text := if patch.Text = "" then row.Text else patch.Text,
    Link := if patch.Link = "" then row.Link else patch.Link }

/-- GetSongs response. -/
inductive ListResp where
  | badRequest (msg : String)
  | notFound (msg : String)
  | ok (songs : List Song)
deriving Repr, DecidableEq

/-- The rows GetSongs fetches: the Find on line 158 runs against the
empty condition map `where` with the computed offset and limit. -/
def listQueryResult (req : List (String × String)) (store : Store) : List Song :=
  let pl := parsePageLimit (getQuery req "page") (getQuery req "limit")
  gormFindAll store.rows ((pl.1 - 1) * pl.2) pl.2

/-- GetSongs handler (src/main.go lines 125-170).  It parses page/limit,
binds the filter struct (400 on a binding error), chains the filter
conditions onto `query` — which is never executed — and then runs the
Find of line 158 with the empty `where` map; an empty result is 404. -/
def getSongs (req : List (String × String)) (store : Store) : ListResp :=
  match bindQuerySong req with
  | Except.error e => ListResp.badRequest e
  | Except.ok _filterSong =>
    let songs := listQueryResult req store
    if songs.length = 0 then ListResp.notFound "No songs found"
    else ListResp.ok songs

/-- Enrichment call outcome (http.Get on line 189 plus the JSON decode
on line 203): a transport error, or a response carrying a status code
and the decode result of its body. -/
inductive FetchResult where
  | transportError
  | response (statusCode : Int) (decoded : Option SongDetail)
deriving Repr, DecidableEq

/-- AddSong response. -/
inductive AddResp where
  | badRequest (msg : String)
  | serverError (msg : String)
  | created (s : Song)
deriving Repr, DecidableEq

/-- AddSong handler (src/main.go lines 182-225): bind the body (400 on
validation failure); any enrichment failure — transport error, non-200
status, decode error — is a 500 that returns before the Create; on
success the verses split/rejoin of lines 209-210 is computed then
overwritten when lines 212-214 copy all three enrichment fields, and the
row is persisted and echoed with status 201. -/
def addSong (body : Song) (fetch : FetchResult) (store : Store) : AddResp × Store :=
  match bindBodySong body with
  | Except.error e => (AddResp.badRequest e, store)
  | Except.ok newSong =>
    match fetch with
    | FetchResult.transportError => (AddResp.serverError "Failed to fetch songs", store)
    | FetchResult.response code decoded =>
      if code ≠ 200 then (AddResp.serverError "Failed to add song", store)
      else
        match decoded with
        | none => (AddResp.serverError "Failed to fetch song info", store)
        | some songDetail =>
          let verses := songDetail.Text.splitOn "\n\n"
          let s1 := { newSong with Text := String.intercalate "\n\n" verses }
          let s2 := { s1 with
            ReleaseDate := songDetail.ReleaseDate,
            Text := songDetail.Text,
            Link := songDetail.Link }
          let r := gormCreate s2 store
          (AddResp.created r.1, r.2)

/-- UpdateSong response. -/
inductive UpdateResp where
  | badRequest (msg : String)
  | notFound (msg : String)
  | ok (s : Song)
deriving Repr, DecidableEq

/-- UpdateSong handler (src/main.go lines 245-273): parse the path id
(400 when not an integer), bind the body (400 on validation failure),
run the gorm Updates against rows with the matching id; zero rows
affected is 404; success echoes the patch as sent with 200. -/
def updateSong (idParam : String) (body : Song) (store : Store) : UpdateResp × Store :=
  match goAtoi idParam with
  | none => (UpdateResp.badRequest "Invalid song ID", store)
  | some id =>
    match bindBodySong body with
    | Except.error e => (UpdateResp.badRequest e, store)
    | Except.ok song =>
      let affected := (store.rows.filter (fun r => r.ID = id)).length
      if affected = 0 then (UpdateResp.notFound "Song not found", store)
      else
        let newRows := store.rows.map
          (fun r => if r.ID = id then gormUpdatesApply song r else r)
        (UpdateResp.ok song, Store.mk newRows store.seq)

/-- GetSongText response; `panicked` models the Go runtime slice-bounds
panic. -/
inductive TextResp where
  | badRequest (msg : String)
  | notFound (msg : String)
  | ok (text : String)
  | panicked
deriving Repr, DecidableEq

/-- GetSongText handler (src/main.go lines 309-337): parse the path id
(400 when not an integer), fetch the song by primary key (404 when
absent), parse page/limit with the shared defaults, and slice the text
to the window with end clamped by `goMin` but the start unguarded. -/
def getSongText (idParam : String) (req : List (String × String)) (store : Store) : TextResp :=
  match goAtoi idParam with
  | none => TextResp.badRequest "Invalid song ID"
  | some id =>
    match gormFirst store.rows id with
    | none => TextResp.notFound "Song not found"
    | some song =>
      let pl := parsePageLimit (getQuery req "page") (getQuery req "limit")
      let offset := (pl.1 - 1) * pl.2
      let e := goMin (offset + pl.2) (song.Text.data.length : Int)
      match goSlice song.Text.data offset e with
      | none => TextResp.panicked
      | some cs => TextResp.ok (String.mk cs)

/-- Body binding succeeds exactly when both required fields are
non-empty, returning the decoded body unchanged. -/
theorem bindBodySong_ok (body : Song) (hg : body.Group ≠ "") (hs : body.SongName ≠ "") :
    bindBodySong body = Except.ok body := by
  unfold bindBodySong
  rw [if_neg hg, if_neg hs]

/-- Claim C1: refuted on the code.  GetSongs builds the filter chain but
executes the Find of line 158 against the empty condition map, so a row
matching none of the supplied filters is still returned: with a single
stored row whose group is "A", a request filtering on group "B" returns
that row even though the chained filter rejects it. -/
theorem C1_filters_not_applied :
    getSongs [("Group", "B"), ("SongName", "S")]
        (Store.mk [Song.mk 1 "A" "S" "" "" ""] 2)
      = ListResp.ok [Song.mk 1 "A" "S" "" "" ""] ∧
    chainedFilter (Song.mk 0 "B" "S" "" "" "") (Song.mk 1 "A" "S" "" "" "") = false := by
  exact ⟨rfl, rfl⟩

/-- Claim C2: refuted on the code.  The query binding validates the
required tags on `Group` and `SongName`, so a list request supplying no
query parameters at all is rejected with a 400 binding error instead of
being served with no filter constraints. -/
theorem C2_filterless_request_rejected :
    getSongs [] (Store.mk [Song.mk 1 "A" "S" "" "" ""] 2)
      = ListResp.badRequest "Group is required" := by
  exact rfl

/-- Claim C3: refuted on the code.  For a stored text of length 5 and
page=3, limit=10, the window start is 20 > 5 while the end is clamped to
5, so the slice text[20:5] raises the slice-bounds panic instead of
returning the empty string. -/
theorem C3_out_of_range_offset_panics :
    getSongText "1" [("page", "3"), ("limit", "10")]
        (Store.mk [Song.mk 1 "g" "s" "rd" "hello" "lk"] 2)
      = TextResp.panicked := by
  exact rfl

/-- Claim C7: when the query binding succeeds and the executed Find
matches zero rows, GetSongs responds 404 "No songs found", never an
empty 200 array. -/
theorem C7_empty_result_is_404 (req : List (String × String)) (store : Store) (f : Song)
    (hb : bindQuerySong req = Except.ok f)
    (he : listQueryResult req store = []) :
    getSongs req store = ListResp.notFound "No songs found" := by
  unfold getSongs
  rw [hb, he]
  rfl

theorem C7_empty_result_is_404_witness :
    getSongs [("Group", "g"), ("SongName", "s")] (Store.mk [] 1)
      = ListResp.notFound "No songs found" :=
  C7_empty_result_is_404 [("Group", "g"), ("SongName", "s")] (Store.mk [] 1)
    (Song.mk 0 "g" "s" "" "" "") (by rfl) (by rfl)

/-- Claim C8: refuted on the code.  A non-numeric limit does not fall
back to the default 10: the discarded Atoi error leaves 0, which gorm
renders as LIMIT 0, so the same store that answers 200 under the default
answers 404 under limit=abc. -/
theorem C8_nonnumeric_limit_not_default :
    parsePageLimit none (some "abc") = (1, 0) ∧
    getSongs [("limit", "abc"), ("Group", "g"), ("SongName", "s")]
        (Store.mk [Song.mk 1 "g" "s" "" "" ""] 2)
      = ListResp.notFound "No songs found" ∧
    getSongs [("Group", "g"), ("SongName", "s")]
        (Store.mk [Song.mk 1 "g" "s" "" "" ""] 2)
      = ListResp.ok [Song.mk 1 "g" "s" "" "" ""] := by
  exact ⟨rfl, rfl, rfl⟩

/-- Claim C8 amended: page and limit default to 1 and 10 only when the
parameter is absent; a supplied non-numeric value parses to 0 (the
conversion error is discarded and the zero value kept), not to the
default. -/
theorem C8_page_limit_parsing (p l : String) (hp : goAtoi p = none) (hl : goAtoi l = none) :
    parsePageLimit none none = (1, 10) ∧
    parsePageLimit (some p) (some l) = (0, 0) ∧
    parsePageLimit (some p) none = (0, 10) ∧
    parsePageLimit none (some l) = (1, 0) := by
  refine ⟨rfl, ?_, ?_, ?_⟩ <;>
    simp [parsePageLimit, atoiOrZero, defaultQuery, hp, hl] <;> rfl

theorem C8_page_limit_parsing_witness :
    parsePageLimit none none = (1, 10) ∧
    parsePageLimit (some "abc") (some "zz") = (0, 0) ∧
    parsePageLimit (some "abc") none = (0, 10) ∧
    parsePageLimit none (some "zz") = (1, 0) :=
  C8_page_limit_parsing "abc" "zz" (by rfl) (by rfl)

/-- Claim C10: an update whose decoded body has an empty (or omitted)
group or song is rejected with a 400 binding error and the store is
left exactly as it was. -/
theorem C10_update_requires_group_and_song (idParam : String) (body : Song) (store : Store)
    (h : body.Group = "" ∨ body.SongName = "") :
    ∃ msg, updateSong idParam body store = (UpdateResp.badRequest msg, store) := by
  cases hi : goAtoi idParam with
  | none => exact ⟨"Invalid song ID", by simp [updateSong, hi]⟩
  | some id =>
    by_cases hg : body.Group = ""
    · exact ⟨"Group is required", by simp [updateSong, hi, bindBodySong, hg]⟩
    · have hs : body.SongName = "" := h.resolve_left hg
      exact ⟨"SongName is required", by simp [updateSong, hi, bindBodySong, hg, hs]⟩

theorem C10_update_requires_group_and_song_witness :
    ∃ msg, updateSong "1" (Song.mk 0 "" "s" "" "" "")
        (Store.mk [Song.mk 1 "A" "S" "rd" "tx" "lk"] 2)
      = (UpdateResp.badRequest msg, Store.mk [Song.mk 1 "A" "S" "rd" "tx" "lk"] 2) :=
  C10_update_requires_group_and_song "1" (Song.mk 0 "" "s" "" "" "")
    (Store.mk [Song.mk 1 "A" "S" "rd" "tx" "lk"] 2) (Or.inl rfl)

/-- Claim C4: when the body passes validation and the enrichment call
fails in any way — transport error, non-200 status, or decode failure —
AddSong responds with a 500 error and the store is exactly what it was
before the request. -/
theorem C4_enrichment_failure_no_write (body : Song) (fetch : FetchResult) (store : Store)
    (hg : body.Group ≠ "") (hs : body.SongName ≠ "")
    (hf : ∀ d, fetch ≠ FetchResult.response 200 (some d)) :
    ∃ msg, addSong body fetch store = (AddResp.serverError msg, store) := by
  cases fetch with
  | transportError =>
    exact ⟨"Failed to fetch songs", by simp [addSong, bindBodySong_ok body hg hs]⟩
  | response code decoded =>
    by_cases hc : code = 200
    · subst hc
      cases decoded with
      | none =>
        exact ⟨"Failed to fetch song info", by simp [addSong, bindBodySong_ok body hg hs]⟩
      | some d => exact absurd rfl (hf d)
    · exact ⟨"Failed to add song", by simp [addSong, bindBodySong_ok body hg hs, hc]⟩

theorem C4_enrichment_failure_no_write_witness :
    ∃ msg, addSong (Song.mk 0 "g" "s" "" "" "") FetchResult.transportError (Store.mk [] 1)
      = (AddResp.serverError msg, Store.mk [] 1) :=
  C4_enrichment_failure_no_write (Song.mk 0 "g" "s" "" "" "") FetchResult.transportError
    (Store.mk [] 1) (by decide) (by decide) (by intro d h; exact FetchResult.noConfusion h)

/-- Claim C5: on a successful create, the stored and returned song has
releaseDate, text and link taken from the enrichment response, whatever
the request body supplied for those fields; the row is appended to the
store. -/
theorem C5_enrichment_fields_stored (body : Song) (d : SongDetail) (store : Store)
    (hg : body.Group ≠ "") (hs : body.SongName ≠ "") :
    ∃ s store2,
      addSong body (FetchResult.response 200 (some d)) store = (AddResp.created s, store2) ∧
      s.ReleaseDate = d.ReleaseDate ∧ s.Text = d.Text ∧ s.Link = d.Link ∧
      store2.rows = store.rows ++ [s] := by
  by_cases h : body.ID = 0
  · refine ⟨Song.mk store.seq body.Group body.SongName d.ReleaseDate d.Text d.Link,
      Store.mk (store.rows ++
        [Song.mk store.seq body.Group body.SongName d.ReleaseDate d.Text d.Link])
        (store.seq + 1), ?_, rfl, rfl, rfl, rfl⟩
    simp [addSong, bindBodySong_ok body hg hs, gormCreate, h]
  · refine ⟨Song.mk body.ID body.Group body.SongName d.ReleaseDate d.Text d.Link,
      Store.mk (store.rows ++
        [Song.mk body.ID body.Group body.SongName d.ReleaseDate d.Text d.Link])
        store.seq, ?_, rfl, rfl, rfl, rfl⟩
    simp [addSong, bindBodySong_ok body hg hs, gormCreate, h]

theorem C5_enrichment_fields_stored_witness :
    ∃ s store2,
      addSong (Song.mk 0 "Muse" "SBH" "bodyRd" "bodyTx" "bodyLk")
          (FetchResult.response 200 (some (SongDetail.mk "2006-07-16" "p1 p2" "http")))
          (Store.mk [] 1)
        = (AddResp.created s, store2) ∧
      s.ReleaseDate = "2006-07-16" ∧ s.Text = "p1 p2" ∧ s.Link = "http" ∧
      store2.rows = [] ++ [s] :=
  C5_enrichment_fields_stored (Song.mk 0 "Muse" "SBH" "bodyRd" "bodyTx" "bodyLk")
    (SongDetail.mk "2006-07-16" "p1 p2" "http") (Store.mk [] 1) (by decide) (by decide)

/-- Claim C6: refuted on the code.  AddSong never clears the client
supplied id before the Create: a body carrying id 42 against a store
whose next serial value is 1 persists a row with id 42, the value taken
from the body rather than a fresh store-assigned one. -/
theorem C6_client_id_persisted :
    addSong (Song.mk 42 "g" "s" "" "" "")
        (FetchResult.response 200 (some (SongDetail.mk "rd" "tx" "lk"))) (Store.mk [] 1)
      = (AddResp.created (Song.mk 42 "g" "s" "rd" "tx" "lk"),
         Store.mk [Song.mk 42 "g" "s" "rd" "tx" "lk"] 1) ∧
    (42 : Int) ≠ 1 := by
  exact ⟨rfl, by decide⟩

/-- Claim C6 amended: the client-supplied id is kept, not discarded —
the store assigns a fresh auto-increment id only when the bound body id
is the zero value; a non-zero body id is persisted as given and the
sequence is untouched. -/
theorem C6_id_assignment (body : Song) (d : SongDetail) (store : Store)
    (hg : body.Group ≠ "") (hs : body.SongName ≠ "") :
    (body.ID = 0 →
      addSong body (FetchResult.response 200 (some d)) store
        = (AddResp.created
             (Song.mk store.seq body.Group body.SongName d.ReleaseDate d.Text d.Link),
           Store.mk (store.rows ++
             [Song.mk store.seq body.Group body.SongName d.ReleaseDate d.Text d.Link])
             (store.seq + 1))) ∧
    (body.ID ≠ 0 →
      addSong body (FetchResult.response 200 (some d)) store
        = (AddResp.created
             (Song.mk body.ID body.Group body.SongName d.ReleaseDate d.Text d.Link),
           Store.mk (store.rows ++
             [Song.mk body.ID body.Group body.SongName d.ReleaseDate d.Text d.Link])
             store.seq)) := by
  constructor <;> intro h <;> simp [addSong, bindBodySong_ok body hg hs, gormCreate, h]

theorem C6_id_assignment_witness :
    addSong (Song.mk 0 "g" "s" "" "" "")
        (FetchResult.response 200 (some (SongDetail.mk "rd" "tx" "lk"))) (Store.mk [] 5)
      = (AddResp.created (Song.mk 5 "g" "s" "rd" "tx" "lk"),
         Store.mk ([] ++ [Song.mk 5 "g" "s" "rd" "tx" "lk"]) 6) ∧
    addSong (Song.mk 7 "g" "s" "" "" "")
        (FetchResult.response 200 (some (SongDetail.mk "rd" "tx" "lk"))) (Store.mk [] 5)
      = (AddResp.created (Song.mk 7 "g" "s" "rd" "tx" "lk"),
         Store.mk ([] ++ [Song.mk 7 "g" "s" "rd" "tx" "lk"]) 5) :=
  ⟨(C6_id_assignment (Song.mk 0 "g" "s" "" "" "") (SongDetail.mk "rd" "tx" "lk")
      (Store.mk [] 5) (by decide) (by decide)).1 rfl,
   (C6_id_assignment (Song.mk 7 "g" "s" "" "" "") (SongDetail.mk "rd" "tx" "lk")
      (Store.mk [] 5) (by decide) (by decide)).2 (by decide)⟩

/-- Claim C9: refuted on the code.  A PUT body containing only a
non-empty group fails the required validation on the song field, so the
request is answered 400 and the targeted row keeps its old group — no
successful group-only update exists. -/
theorem C9_group_only_patch_rejected :
    updateSong "1" (Song.mk 0 "X" "" "" "" "")
        (Store.mk [Song.mk 1 "A" "S" "rd" "tx" "lk"] 2)
      = (UpdateResp.badRequest "SongName is required",
         Store.mk [Song.mk 1 "A" "S" "rd" "tx" "lk"] 2) := by
  exact rfl

/-- Claim C9 amended: a group-only body is rejected with 400 and the
store is untouched; a body carrying non-empty group and song and zero
values elsewhere (in particular a zero id — a non-zero body id would
itself be written into the SET clause) answers 404 exactly when no row
carries the target id, and otherwise updates exactly the group and song
fields of the rows with the matching id, leaving each row's id,
releaseDate, text and link, every other row, and the sequence
unchanged. -/
theorem C9_patch_update (idParam : String) (id : Int) (body : Song) (store : Store)
    (hid : goAtoi idParam = some id) :
    (body.Group ≠ "" → body.SongName = "" →
      updateSong idParam body store
        = (UpdateResp.badRequest "SongName is required", store)) ∧
    (body.ID = 0 → body.Group ≠ "" → body.SongName ≠ "" →
      body.ReleaseDate = "" → body.Text = "" → body.Link = "" →
      ((∀ r ∈ store.rows, r.ID ≠ id) →
        updateSong idParam body store = (UpdateResp.notFound "Song not found", store)) ∧
      ((∃ r ∈ store.rows, r.ID = id) →
        updateSong idParam body store = (UpdateResp.ok body,
          Store.mk (store.rows.map (fun r => if r.ID = id then
            Song.mk r.ID body.Group body.SongName r.ReleaseDate r.Text r.Link else r))
            store.seq))) := by
  constructor
  · intro hg hs
    simp [updateSong, hid, bindBodySong, hg, hs]
  · intro hID hg hs hrd htx hlk
    constructor
    · intro hnone
      have hnil : store.rows.filter (fun r => r.ID = id) = [] := by
        refine List.filter_eq_nil_iff.mpr ?_
        intro a ha
        simpa using hnone a ha
      have haff : (store.rows.filter (fun r => r.ID = id)).length = 0 := by
        rw [hnil]
        rfl
      simp [updateSong, hid, bindBodySong_ok body hg hs, haff]
    · intro hsome
      obtain ⟨r0, hr0, hr0id⟩ := hsome
      have haff : (store.rows.filter (fun r => r.ID = id)).length ≠ 0 := by
        intro h0
        have hnil : store.rows.filter (fun r => r.ID = id) = [] :=
          List.length_eq_zero.mp h0
        have hmem : r0 ∈ store.rows.filter (fun r => r.ID = id) :=
          List.mem_filter.mpr ⟨hr0, by simpa using hr0id⟩
        rw [hnil] at hmem
        exact absurd hmem (List.not_mem_nil r0)
      have hfun : ∀ r : Song, gormUpdatesApply body r
          = Song.mk r.ID body.Group body.SongName r.ReleaseDate r.Text r.Link := by
        intro r
        simp [gormUpdatesApply, hID, hg, hs, hrd, htx, hlk]
      simp [updateSong, hid, bindBodySong_ok body hg hs, haff, hfun]

theorem C9_patch_update_witness :
    (updateSong "1" (Song.mk 0 "X" "" "" "" "")
        (Store.mk [Song.mk 1 "A" "S" "rd" "tx" "lk"] 2)
      = (UpdateResp.badRequest "SongName is required",
         Store.mk [Song.mk 1 "A" "S" "rd" "tx" "lk"] 2)) ∧
    updateSong "1" (Song.mk 0 "X" "Y" "" "" "")
        (Store.mk [Song.mk 1 "A" "S" "rd" "tx" "lk"] 2)
      = (UpdateResp.ok (Song.mk 0 "X" "Y" "" "" ""),
         Store.mk ([Song.mk 1 "A" "S" "rd" "tx" "lk"].map (fun r => if r.ID = 1 then
           Song.mk r.ID "X" "Y" r.ReleaseDate r.Text r.Link else r)) 2) :=
  ⟨(C9_patch_update "1" 1 (Song.mk 0 "X" "" "" "" "")
      (Store.mk [Song.mk 1 "A" "S" "rd" "tx" "lk"] 2) rfl).1 (by decide) rfl,
   ((C9_patch_update "1" 1 (Song.mk 0 "X" "Y" "" "" "")
      (Store.mk [Song.mk 1 "A" "S" "rd" "tx" "lk"] 2) rfl).2
     rfl (by decide) (by decide) rfl rfl rfl).2
     ⟨Song.mk 1 "A" "S" "rd" "tx" "lk", by simp, rfl⟩⟩

end MusikApi
